import Mathlib

set_option linter.unusedVariables false

/-!
Shallow embedding of `src/travel_planner/agentic_travel_planner.py`.

The program's core is a location-resolution layer (two in-process caches:
city/airport name → IATA code, code → coordinates) and three data fetchers
(flight, hotel, activities) that normalise external-service responses into
plain records with deterministic fallbacks.

Modelling conventions:
* The external Amadeus service is an oracle.  The location service is a
  function `Nat → SvcResult (List LocationRec)`: the `k`-th external location
  call receives response `svc k`.  The flight/hotel/activity endpoints are
  each called at most once per operation, so their behaviour is a single
  `SvcResult` value.
* A `SvcResult` is either `respError` (the amadeus client raised
  `ResponseError`), `genError` (the call raised some other exception), or
  `ok data` (the parsed response body).
* Response fields accessed with Python `d["key"]` are `Option` fields read
  through `pyKey` (raising `KeyError` when absent); fields accessed with
  `d.get("key", default)` are read with `Option.getD`.
* Python exceptions that the source does not catch are `Except.error`
  results; operations whose `try/except` covers every fallible step are
  total functions.
* Stateful operations take and return the cache state `ResolverSt`
  explicitly, together with the next oracle index and the list of external
  location queries issued during the call.
* Python `str.upper()` and slicing `s[:3]` are modelled characterwise
  (`pyUpper`, `pyTake`); numeric latitude/longitude values are abstracted
  as `Int` (only their presence and Python truthiness — zero is falsy —
  matter to the code).
-/

namespace TravelPlanner

/-- Python dict modelled as an association list; assignment prepends, lookup
finds the most recent binding. -/
def lookupStr {α : Type} (m : List (String × α)) (key : String) : Option α :=
  match m with
  | [] => none
  | (k, v) :: rest => if k = key then some v else lookupStr rest key

def insertStr {α : Type} (m : List (String × α)) (key : String) (v : α) :
    List (String × α) :=
  (key, v) :: m

/-- Python `s.upper()`, characterwise. -/
def pyUpper (s : String) : String := ⟨s.data.map Char.toUpper⟩

/-- Python `s[:n]`, characterwise. -/
def pyTake (s : String) (n : Nat) : String := ⟨s.data.take n⟩

/-- Python exceptions that can escape uncaught code. -/
inductive PyErr : Type
  | keyError
  | indexError
  | svcException
deriving DecidableEq, Repr

/-- `d["key"]` on an optional field: raises `KeyError` when absent. -/
def pyKey {α : Type} : Option α → Except PyErr α
  | some a => Except.ok a
  | none => Except.error PyErr.keyError

/-- `l[0]`: raises `IndexError` on an empty list. -/
def pyHead {α : Type} : List α → Except PyErr α
  | [] => Except.error PyErr.indexError
  | a :: _ => Except.ok a

/-- `l[-1]`: raises `IndexError` on an empty list. -/
def pyLast {α : Type} (l : List α) : Except PyErr α :=
  match l.getLast? with
  | some a => Except.ok a
  | none => Except.error PyErr.indexError

/-- Behaviour of one external service call. -/
inductive SvcResult (α : Type) : Type
  | respError
  | genError
  | ok (data : α)
deriving DecidableEq, Repr

-- ---------- Simple domain models (lines 52-75) ----------

structure FlightOption where
  airline : String
  price : String
  departure_time : String
  arrival_time : String
deriving DecidableEq, Repr

structure HotelOption where
  name : String
  nightly_price : String
  address : String
deriving DecidableEq, Repr

structure Activity where
  name : String
  description : String
deriving DecidableEq, Repr

-- ---------- Location service response shape ----------

/-- `geoCode` object of a location record; `latitude` / `longitude` read via
`.get`, hence plain options. -/
structure GeoCode where
  latitude : Option Int
  longitude : Option Int
deriving DecidableEq, Repr

/-- One entry of `response.data` from `reference_data.locations.get`. -/
structure LocationRec where
  iataCode : Option String
  geoCode : Option GeoCode
deriving DecidableEq, Repr

abbrev LocData := List LocationRec

/-- Oracle for the location-search endpoint: response to the `k`-th call. -/
abbrev LocSvc := Nat → SvcResult LocData

/-- Parameters of one `reference_data.locations.get` call. -/
structure LocQuery where
  keyword : String
  subType : String
  view : Option String
deriving DecidableEq, Repr

/-- The two module-level caches (lines 78-79). -/
structure ResolverSt where
  code_cache : List (String × String)
  coordinate_cache : List (String × (Int × Int))
deriving DecidableEq, Repr

def emptySt : ResolverSt := ⟨[], []⟩

/-- Result of a resolver call: returned value, updated caches, next oracle
index, and the external location queries issued during the call. -/
structure LocOut (α : Type) where
  ret : α
  st : ResolverSt
  k : Nat
  queries : List LocQuery
deriving DecidableEq, Repr

-- ---------- City/Airport code lookup with caching (lines 81-160) ----------

/-- `get_city_code` (lines 81-111).  Cache check by upper-cased name; on miss
one CITY `view=FULL` query; on a non-empty result caches the code and, when
both coordinates are truthy, the coordinate pair; on an empty result, a
missing `iataCode` key (the blanket `except Exception`), or a raising call,
returns the 3-character truncation fallback. -/
def get_city_code (svc : LocSvc) (st : ResolverSt) (k : Nat)
    (city_name : String) : LocOut String :=
  match lookupStr st.code_cache (pyUpper city_name) with
  | some code => ⟨code, st, k, []⟩
  | none =>
    let q : LocQuery := ⟨city_name, "CITY", some "FULL"⟩
    match svc k with
    | SvcResult.ok (rec :: _) =>
      match rec.iataCode with
      | some code =>
        let st1 : ResolverSt :=
          { st with code_cache := insertStr st.code_cache (pyUpper city_name) code }
        let geo := rec.geoCode.getD ⟨none, none⟩
        let st2 : ResolverSt :=
          match geo.latitude, geo.longitude with
          | some lat, some lon =>
            if lat ≠ 0 ∧ lon ≠ 0 then
              { st1 with
                coordinate_cache := insertStr st1.coordinate_cache code (lat, lon) }
            else st1
          | _, _ => st1
        ⟨code, st2, k + 1, [q]⟩
      | none => ⟨pyUpper (pyTake city_name 3), st, k + 1, [q]⟩
    | SvcResult.ok [] => ⟨pyUpper (pyTake city_name 3), st, k + 1, [q]⟩
    | SvcResult.respError => ⟨pyUpper (pyTake city_name 3), st, k + 1, [q]⟩
    | SvcResult.genError => ⟨pyUpper (pyTake city_name 3), st, k + 1, [q]⟩

/-- `get_airport_code` (lines 113-134).  Same cache check; one AIRPORT query;
on success caches the code; on an empty result, a missing `iataCode` key
(caught by `except Exception`), or a raising call, delegates to
`get_city_code`. -/
def get_airport_code (svc : LocSvc) (st : ResolverSt) (k : Nat)
    (city_name : String) : LocOut String :=
  match lookupStr st.code_cache (pyUpper city_name) with
  | some code => ⟨code, st, k, []⟩
  | none =>
    let q : LocQuery := ⟨city_name, "AIRPORT", none⟩
    match svc k with
    | SvcResult.ok (rec :: _) =>
      match rec.iataCode with
      | some code =>
        ⟨code,
         { st with code_cache := insertStr st.code_cache (pyUpper city_name) code },
         k + 1, [q]⟩
      | none =>
        let r := get_city_code svc st (k + 1) city_name
        ⟨r.ret, r.st, r.k, q :: r.queries⟩
    | SvcResult.ok [] =>
      let r := get_city_code svc st (k + 1) city_name
      ⟨r.ret, r.st, r.k, q :: r.queries⟩
    | SvcResult.respError =>
      let r := get_city_code svc st (k + 1) city_name
      ⟨r.ret, r.st, r.k, q :: r.queries⟩
    | SvcResult.genError =>
      let r := get_city_code svc st (k + 1) city_name
      ⟨r.ret, r.st, r.k, q :: r.queries⟩

/-- `get_city_coordinates` (lines 136-160).  Coordinate-cache check by code;
on miss one CITY `view=FULL` query; caches and returns the pair only when
both coordinates are truthy; `none` otherwise (absence is not an error). -/
def get_city_coordinates (svc : LocSvc) (st : ResolverSt) (k : Nat)
    (city_code : String) : LocOut (Option (Int × Int)) :=
  match lookupStr st.coordinate_cache city_code with
  | some c => ⟨some c, st, k, []⟩
  | none =>
    let q : LocQuery := ⟨city_code, "CITY", some "FULL"⟩
    match svc k with
    | SvcResult.ok (rec :: _) =>
      let geo := rec.geoCode.getD ⟨none, none⟩
      match geo.latitude, geo.longitude with
      | some lat, some lon =>
        if lat ≠ 0 ∧ lon ≠ 0 then
          ⟨some (lat, lon),
           { st with coordinate_cache := insertStr st.coordinate_cache city_code (lat, lon) },
           k + 1, [q]⟩
        else ⟨none, st, k + 1, [q]⟩
      | _, _ => ⟨none, st, k + 1, [q]⟩
    | SvcResult.ok [] => ⟨none, st, k + 1, [q]⟩
    | SvcResult.respError => ⟨none, st, k + 1, [q]⟩
    | SvcResult.genError => ⟨none, st, k + 1, [q]⟩

-- ---------- Flight offers response shape ----------

structure FlightPrice where
  total : Option String
deriving DecidableEq, Repr

/-- `departure` / `arrival` object of a segment, holding the `"at"` time. -/
structure FlightPoint where
  at_ : Option String
deriving DecidableEq, Repr

structure FlightSegment where
  carrierCode : Option String
  departure : Option FlightPoint
  arrival : Option FlightPoint
deriving DecidableEq, Repr

structure FlightItinerary where
  segments : Option (List FlightSegment)
deriving DecidableEq, Repr

structure FlightOffer where
  price : Option FlightPrice
  itineraries : Option (List FlightItinerary)
deriving DecidableEq, Repr

/-- The extraction block of `find_best_flight` (lines 187-204): every access
is a raising `["key"]` / index access, and none of the raised exceptions is a
`ResponseError`, so errors here escape the function's `except ResponseError`
handler. -/
def parseFirstOffer (best : FlightOffer) : Except PyErr FlightOption := do
  let priceRec ← pyKey best.price
  let price ← pyKey priceRec.total
  let first_itinerary ← pyHead (← pyKey best.itineraries)
  let segs ← pyKey first_itinerary.segments
  let first_segment ← pyHead segs
  let last_segment ← pyLast segs
  let airline ← pyKey first_segment.carrierCode
  let departure_time ← pyKey (← pyKey first_segment.departure).at_
  let arrival_time ← pyKey (← pyKey last_segment.arrival).at_
  Except.ok ⟨airline, price ++ " USD", departure_time, arrival_time⟩

/-- `find_best_flight` (lines 163-212).  Only `ResponseError` is caught; a
non-`ResponseError` exception from the call, or any exception raised while
extracting fields from the first offer, escapes as `Except.error`. -/
def find_best_flight (origin destination dep ret : String)
    (resp : SvcResult (List FlightOffer)) : Except PyErr FlightOption :=
  match resp with
  | SvcResult.respError =>
    Except.ok ⟨"Error fetching flights", "N/A", "N/A", "N/A"⟩
  | SvcResult.genError => Except.error PyErr.svcException
  | SvcResult.ok offers =>
    match offers with
    | [] => Except.ok ⟨"No flights found", "N/A", "N/A", "N/A"⟩
    | best :: _ => parseFirstOffer best

-- ---------- Hotel offers response shape ----------

structure HotelAddress where
  lines : Option (List String)
deriving DecidableEq, Repr

structure HotelInfo where
  name : Option String
  address : Option HotelAddress
deriving DecidableEq, Repr

structure HotelOfferPrice where
  total : Option String
deriving DecidableEq, Repr

structure HotelOfferInfo where
  price : Option HotelOfferPrice
deriving DecidableEq, Repr

/-- One entry of `response.data` from the v3 hotel-offers endpoint. -/
structure HotelRec where
  hotel : Option HotelInfo
  offers : Option (List HotelOfferInfo)
deriving DecidableEq, Repr

/-- `find_best_hotel` (lines 214-277).  Catches `ResponseError` and the
blanket `Exception`; every field access in the body uses `.get` with a
default (the single raising index `offers[0]` is guarded by the emptiness
check), so the operation is total. -/
def find_best_hotel (destination dep ret : String)
    (resp : SvcResult (List HotelRec)) : HotelOption :=
  match resp with
  | SvcResult.respError => ⟨"Error fetching hotels (API issue)", "N/A", "N/A"⟩
  | SvcResult.genError => ⟨"Error fetching hotels (General)", "N/A", "N/A"⟩
  | SvcResult.ok data =>
    match data with
    | [] => ⟨"No hotel offers found", "N/A", "N/A"⟩
    | first_hotel_offers :: _ =>
      match first_hotel_offers.offers with
      | none => ⟨"No hotel offers found", "N/A", "N/A"⟩
      | some [] => ⟨"No hotel offers found", "N/A", "N/A"⟩
      | some (offer_info :: _) =>
        let hotel_info := first_hotel_offers.hotel.getD ⟨none, none⟩
        let name := hotel_info.name.getD "Unknown Hotel"
        let address_lines := (hotel_info.address.getD ⟨none⟩).lines.getD []
        let address := address_lines.headD "Address not available"
        let price := (offer_info.price.getD ⟨none⟩).total.getD "N/A"
        ⟨name, price ++ " USD", address⟩

-- ---------- Activities response shape ----------

structure ActPrice where
  currencyCode : Option String
  amount : Option String
deriving DecidableEq, Repr

/-- One entry of `response.data` from the activities endpoint. -/
structure ActivityItem where
  name : Option String
  category : Option String
  shortDescription : Option String
  price : Option ActPrice
deriving DecidableEq, Repr

/-- Body of the per-item loop of `get_activities` (lines 302-315), including
the Python truthiness tests on `shortDescription` and the price fields
(`None` and the empty string are falsy). -/
def buildActivity (item : ActivityItem) : Activity :=
  let name := item.name.getD "Unknown Activity"
  let description := "Category: " ++ item.category.getD "N/A"
  let description :=
    match item.shortDescription with
    | some s => if s = "" then description else s
    | none => description
  let price_info := item.price.getD ⟨none, none⟩
  let description :=
    match price_info.currencyCode, price_info.amount with
    | some c, some a =>
      if c = "" ∨ a = "" then description
      else description ++ " (Price: " ++ a ++ " " ++ c ++ ")"
    | _, _ => description
  ⟨name, description⟩

/-- `get_activities` (lines 280-332).  First resolves coordinates through the
location layer (outside the `try`, but `get_city_coordinates` absorbs its own
errors); on missing coordinates a single sentinel entry; otherwise one
activities call whose `ResponseError` / general-exception / empty outcomes
each map to a fixed non-empty fallback, and whose non-empty data is truncated
to the first 3 items.  The query log records the external location queries
issued by the coordinate resolution. -/
def get_activities (locSvc : LocSvc) (actResp : SvcResult (List ActivityItem))
    (st : ResolverSt) (k : Nat) (destination : String) :
    LocOut (List Activity) :=
  let r := get_city_coordinates locSvc st k destination
  match r.ret with
  | none =>
    ⟨[⟨"Coordinate Error", "Cannot search activities without coordinates."⟩],
     r.st, r.k, r.queries⟩
  | some _ =>
    match actResp with
    | SvcResult.respError =>
      ⟨[⟨"City Walking Tour", "Explore the main sights on foot (API Error Fallback)."⟩,
        ⟨"Local Market", "Enjoy local food and crafts (API Error Fallback)."⟩],
       r.st, r.k, r.queries⟩
    | SvcResult.genError =>
      ⟨[⟨"Activity Search Failed", "Check local listings (General Error Fallback)."⟩],
       r.st, r.k, r.queries⟩
    | SvcResult.ok data =>
      let activities_list := (data.take 3).map buildActivity
      match activities_list with
      | [] =>
        ⟨[⟨"Local Exploration", "Explore nearby attractions and sights."⟩,
          ⟨"Dining Experience", "Try a highly-rated local restaurant."⟩],
         r.st, r.k, r.queries⟩
      | a :: tail => ⟨a :: tail, r.st, r.k, r.queries⟩

-- ---------- Auxiliary predicates and concrete fixtures ----------

/-- A location response that sends `get_city_code` / `get_airport_code` into
their fallback branch: a raising call, an empty result, or a first record
without an `iataCode` key (whose `KeyError` the blanket handler catches). -/
def locRespFails : SvcResult LocData → Bool
  | SvcResult.respError => true
  | SvcResult.genError => true
  | SvcResult.ok [] => true
  | SvcResult.ok (rec :: _) => rec.iataCode.isNone

/-- Every code stored in the name → code cache is non-empty. -/
def cacheCodesNonempty (st : ResolverSt) : Prop :=
  ∀ key c, lookupStr st.code_cache key = some c → c ≠ ""

/-- Every `iataCode` the service returns in a first record is non-empty. -/
def svcHeadCodesNonempty (svc : LocSvc) : Prop :=
  ∀ k rec rest c, svc k = SvcResult.ok (rec :: rest) → rec.iataCode = some c →
    c ≠ ""

/-- Service whose location search always returns an empty result. -/
def svcEmpty : LocSvc := fun _ => SvcResult.ok []

def parisRec : LocationRec := ⟨some "PAR", some ⟨some 48, some 2⟩⟩

/-- Service that always resolves to `PAR` with coordinates (48, 2). -/
def svcParis : LocSvc := fun _ => SvcResult.ok [parisRec]

/-- Service that resolves to `PAR` with a present but zero latitude. -/
def svcZeroLat : LocSvc := fun _ => SvcResult.ok [⟨some "PAR", some ⟨some 0, some 10⟩⟩]

/-- Service whose first call (the AIRPORT lookup) raises and whose second
call (the delegated CITY lookup) succeeds. -/
def svcAirportErrCityOk : LocSvc := fun k =>
  if k = 0 then SvcResult.respError else SvcResult.ok [⟨some "PAR", none⟩]

/-- Cache state holding coordinates for `PAR` only. -/
def stParisCoord : ResolverSt := ⟨[], [("PAR", (48, 2))]⟩

def seg450 : FlightSegment :=
  ⟨some "AF", some ⟨some "2025-06-01T08:00"⟩, some ⟨some "2025-06-01T10:00"⟩⟩

def itin450 : FlightItinerary := ⟨some [seg450]⟩

/-- One well-formed offer priced "450" (the spec's end-to-end example). -/
def offer450 : FlightOffer := ⟨some ⟨some "450"⟩, some [itin450]⟩

-- ---------- Shape lemmas for the resolver operations ----------

theorem lookupStr_insert_self {α : Type} (m : List (String × α)) (key : String)
    (v : α) : lookupStr (insertStr m key v) key = some v := by
  simp [lookupStr, insertStr]

theorem pyUpper_pyTake_ne_empty (s : String) (h : s ≠ "") :
    pyUpper (pyTake s 3) ≠ "" := by
  obtain ⟨l⟩ := s
  cases l with
  | nil => exact absurd rfl h
  | cons c cs =>
    rw [Ne, String.ext_iff]
    simp [pyUpper, pyTake]

/-- Cache hit in `get_city_code`: value returned, no query, state unchanged. -/
theorem city_hit (svc : LocSvc) (st : ResolverSt) (k : Nat) (name code : String)
    (h : lookupStr st.code_cache (pyUpper name) = some code) :
    get_city_code svc st k name = ⟨code, st, k, []⟩ := by
  unfold get_city_code
  rw [h]

/-- Fallback branch of `get_city_code`: truncation code, state unchanged, one
query issued. -/
theorem city_fallback (svc : LocSvc) (st : ResolverSt) (k : Nat) (name : String)
    (hmiss : lookupStr st.code_cache (pyUpper name) = none)
    (hfail : locRespFails (svc k) = true) :
    get_city_code svc st k name
      = ⟨pyUpper (pyTake name 3), st, k + 1, [⟨name, "CITY", some "FULL"⟩]⟩ := by
  unfold get_city_code
  rw [hmiss]
  cases hs : svc k with
  | respError => rfl
  | genError => rfl
  | ok data =>
    cases data with
    | nil => rfl
    | cons rec rest =>
      rw [hs] at hfail
      simp only [locRespFails, Option.isNone_iff_eq_none] at hfail
      simp [hfail]

/-- Success branch of `get_city_code`: returned code, cached code, one query;
stated without assumptions on the geo fields, hence only up to the
`code_cache` component of the final state. -/
theorem city_success_parts (svc : LocSvc) (st : ResolverSt) (k : Nat)
    (name : String) (rec : LocationRec) (rest : LocData) (code : String)
    (hmiss : lookupStr st.code_cache (pyUpper name) = none)
    (hresp : svc k = SvcResult.ok (rec :: rest))
    (hcode : rec.iataCode = some code) :
    (get_city_code svc st k name).ret = code
      ∧ (get_city_code svc st k name).st.code_cache
          = insertStr st.code_cache (pyUpper name) code
      ∧ (get_city_code svc st k name).k = k + 1
      ∧ (get_city_code svc st k name).queries
          = [⟨name, "CITY", some "FULL"⟩] := by
  unfold get_city_code
  rw [hmiss, hresp]
  simp only [hcode]
  refine ⟨by trivial, ?_, by trivial, by trivial⟩
  split
  · split <;> rfl
  · rfl

/-- Success branch of `get_city_code` when both coordinates are present and
truthy: the full resulting state, including the coordinate-cache entry. -/
theorem city_success_geo (svc : LocSvc) (st : ResolverSt) (k : Nat)
    (name : String) (rec : LocationRec) (rest : LocData) (code : String)
    (lat lon : Int)
    (hmiss : lookupStr st.code_cache (pyUpper name) = none)
    (hresp : svc k = SvcResult.ok (rec :: rest))
    (hcode : rec.iataCode = some code)
    (hgeo : rec.geoCode = some ⟨some lat, some lon⟩)
    (hlat : lat ≠ 0) (hlon : lon ≠ 0) :
    get_city_code svc st k name
      = ⟨code,
         ⟨insertStr st.code_cache (pyUpper name) code,
          insertStr st.coordinate_cache code (lat, lon)⟩,
         k + 1, [⟨name, "CITY", some "FULL"⟩]⟩ := by
  unfold get_city_code
  rw [hmiss, hresp]
  simp [hcode, hgeo, hlat, hlon]

/-- Cache hit in `get_airport_code`. -/
theorem airport_hit (svc : LocSvc) (st : ResolverSt) (k : Nat)
    (name code : String)
    (h : lookupStr st.code_cache (pyUpper name) = some code) :
    get_airport_code svc st k name = ⟨code, st, k, []⟩ := by
  unfold get_airport_code
  rw [h]

/-- Success branch of `get_airport_code`: code cached under the upper-cased
name, coordinate cache untouched. -/
theorem airport_success (svc : LocSvc) (st : ResolverSt) (k : Nat)
    (name : String) (rec : LocationRec) (rest : LocData) (code : String)
    (hmiss : lookupStr st.code_cache (pyUpper name) = none)
    (hresp : svc k = SvcResult.ok (rec :: rest))
    (hcode : rec.iataCode = some code) :
    get_airport_code svc st k name
      = ⟨code,
         ⟨insertStr st.code_cache (pyUpper name) code, st.coordinate_cache⟩,
         k + 1, [⟨name, "AIRPORT", none⟩]⟩ := by
  unfold get_airport_code
  rw [hmiss, hresp]
  simp [hcode]

/-- Fallback branch of `get_airport_code`: delegates to `get_city_code` on
the same cache state with the next oracle response. -/
theorem airport_fallback (svc : LocSvc) (st : ResolverSt) (k : Nat)
    (name : String)
    (hmiss : lookupStr st.code_cache (pyUpper name) = none)
    (hfail : locRespFails (svc k) = true) :
    get_airport_code svc st k name
      = ⟨(get_city_code svc st (k + 1) name).ret,
         (get_city_code svc st (k + 1) name).st,
         (get_city_code svc st (k + 1) name).k,
         ⟨name, "AIRPORT", none⟩ :: (get_city_code svc st (k + 1) name).queries⟩ := by
  unfold get_airport_code
  rw [hmiss]
  cases hs : svc k with
  | respError => rfl
  | genError => rfl
  | ok data =>
    cases data with
    | nil => rfl
    | cons rec rest =>
      rw [hs] at hfail
      simp only [locRespFails, Option.isNone_iff_eq_none] at hfail
      simp [hfail]

/-- Cache hit in `get_city_coordinates`. -/
theorem coords_hit (svc : LocSvc) (st : ResolverSt) (k : Nat) (code : String)
    (c : Int × Int) (h : lookupStr st.coordinate_cache code = some c) :
    get_city_coordinates svc st k code = ⟨some c, st, k, []⟩ := by
  unfold get_city_coordinates
  rw [h]

/-- Each `get_city_code` call issues at most one external query. -/
theorem city_queries_len_le_one (svc : LocSvc) (st : ResolverSt) (k : Nat)
    (name : String) : (get_city_code svc st k name).queries.length ≤ 1 := by
  unfold get_city_code
  cases hl : lookupStr st.code_cache (pyUpper name) with
  | some code => simp
  | none =>
    cases hs : svc k with
    | respError => simp
    | genError => simp
    | ok data =>
      cases data with
      | nil => simp
      | cons rec rest =>
        cases hc : rec.iataCode with
        | some code => simp [hc]
        | none => simp [hc]

/-- A non-empty name reaching the fallback chain still yields a non-empty
code (used for the amended C4). -/
theorem city_ret_ne_empty (svc : LocSvc) (st : ResolverSt) (k : Nat)
    (name : String) (hname : name ≠ "") (hcache : cacheCodesNonempty st)
    (hsvc : svcHeadCodesNonempty svc) :
    (get_city_code svc st k name).ret ≠ "" := by
  cases hl : lookupStr st.code_cache (pyUpper name) with
  | some c =>
    rw [city_hit svc st k name c hl]
    exact hcache _ _ hl
  | none =>
    cases hs : svc k with
    | respError =>
      rw [city_fallback svc st k name hl (by rw [hs]; rfl)]
      exact pyUpper_pyTake_ne_empty name hname
    | genError =>
      rw [city_fallback svc st k name hl (by rw [hs]; rfl)]
      exact pyUpper_pyTake_ne_empty name hname
    | ok data =>
      cases data with
      | nil =>
        rw [city_fallback svc st k name hl (by rw [hs]; rfl)]
        exact pyUpper_pyTake_ne_empty name hname
      | cons rec rest =>
        cases hc : rec.iataCode with
        | some c =>
          rw [(city_success_parts svc st k name rec rest c hl hs hc).1]
          exact hsvc k rec rest c hs hc
        | none =>
          rw [city_fallback svc st k name hl
            (by rw [hs]; simp [locRespFails, hc])]
          exact pyUpper_pyTake_ne_empty name hname

-- ---------- Claim theorems ----------

/-- Claim C1, counterexample: an offer whose `price` field is missing makes
`find_best_flight` raise a `KeyError` past the Travel Data Fetcher boundary
(its handler catches only `ResponseError`), instead of returning a sentinel
record. -/
theorem C1_counterexample :
    find_best_flight "JFK" "CDG" "2025-06-01" "2025-06-10"
        (SvcResult.ok [⟨none, none⟩])
      = Except.error PyErr.keyError := rfl

/-- Claim C1 (amended): `find_best_hotel` and `get_activities` absorb every
service behaviour (their handlers cover the whole body, and the two
operations are total functions in this embedding); `find_best_flight`
absorbs a service `ResponseError` or an empty offer list into a sentinel
record instead of raising — but malformed or field-missing offer data makes
it raise past the boundary. -/
theorem C1_thm (origin destination dep ret : String)
    (resp : SvcResult (List FlightOffer))
    (h : resp = SvcResult.respError ∨ resp = SvcResult.ok []) :
    find_best_flight origin destination dep ret resp
        = Except.ok ⟨"Error fetching flights", "N/A", "N/A", "N/A"⟩ ∨
      find_best_flight origin destination dep ret resp
        = Except.ok ⟨"No flights found", "N/A", "N/A", "N/A"⟩ := by
  rcases h with h | h <;> subst h
  · exact Or.inl rfl
  · exact Or.inr rfl

theorem C1_witness :
    find_best_flight "JFK" "CDG" "2025-06-01" "2025-06-10" SvcResult.respError
        = Except.ok ⟨"Error fetching flights", "N/A", "N/A", "N/A"⟩ ∨
      find_best_flight "JFK" "CDG" "2025-06-01" "2025-06-10" SvcResult.respError
        = Except.ok ⟨"No flights found", "N/A", "N/A", "N/A"⟩ :=
  C1_thm "JFK" "CDG" "2025-06-01" "2025-06-10" SvcResult.respError (Or.inl rfl)

/-- Claim C2, counterexample: with a service that always returns an empty
result, two `get_city_code` calls with the same name issue two external
queries in total — the failing first call caches nothing, so the second call
is not a cache hit. -/
theorem C2_counterexample :
    ¬ ((get_city_code svcEmpty emptySt 0 "Zzqx").queries.length
        + (get_city_code svcEmpty (get_city_code svcEmpty emptySt 0 "Zzqx").st
            (get_city_code svcEmpty emptySt 0 "Zzqx").k "Zzqx").queries.length
        ≤ 1) := by decide

/-- Claim C2 (amended): if the first `get_city_code` call leaves the
upper-cased name cached (it was a cache hit or a successful lookup), then a
second call with the same name in any letter case is served from the cache —
it returns the cached code, leaves state and oracle index unchanged and
issues no query — and the first call issued at most one query, so the pair
issues at most one external query in total. -/
theorem C2_thm (svc : LocSvc) (st : ResolverSt) (k : Nat)
    (name name' code : String)
    (hcase : pyUpper name' = pyUpper name)
    (hcached : lookupStr (get_city_code svc st k name).st.code_cache
        (pyUpper name) = some code) :
    get_city_code svc (get_city_code svc st k name).st
        (get_city_code svc st k name).k name'
      = ⟨code, (get_city_code svc st k name).st,
         (get_city_code svc st k name).k, []⟩
      ∧ (get_city_code svc st k name).queries.length ≤ 1 := by
  constructor
  · exact city_hit svc _ _ name' code (by rw [hcase]; exact hcached)
  · exact city_queries_len_le_one svc st k name

theorem C2_witness :
    (get_city_code svcParis (get_city_code svcParis emptySt 0 "Paris").st
        (get_city_code svcParis emptySt 0 "Paris").k "pArIs"
      = ⟨"PAR", (get_city_code svcParis emptySt 0 "Paris").st,
         (get_city_code svcParis emptySt 0 "Paris").k, []⟩
      ∧ (get_city_code svcParis emptySt 0 "Paris").queries.length ≤ 1) :=
  C2_thm svcParis emptySt 0 "Paris" "pArIs" "PAR" (by decide) (by decide)

/-- Claim C3, counterexample: a successful `get_city_code` call whose
response carries geo coordinates with latitude 0 (present, but falsy for
Python's `if lat and lon:`) does not populate the coordinate cache, and the
subsequent `get_city_coordinates` call issues a further external query
instead of hitting the cache. -/
theorem C3_counterexample :
    (get_city_code svcZeroLat emptySt 0 "Paris").ret = "PAR"
      ∧ (get_city_code svcZeroLat emptySt 0 "Paris").st.coordinate_cache = []
      ∧ (get_city_coordinates svcZeroLat
          (get_city_code svcZeroLat emptySt 0 "Paris").st 1 "PAR").queries.length
        = 1 := by decide

/-- Claim C3 (amended): whenever `get_city_code` succeeds and the response
carries geo coordinates that are both present and non-zero (Python
truthiness), the coordinate cache is populated under the resolved code, and
a subsequent `get_city_coordinates` call with that code is a cache hit
returning those coordinates and issuing no external query. -/
theorem C3_thm (svc svc' : LocSvc) (st : ResolverSt) (k k' : Nat)
    (name code : String) (rec : LocationRec) (rest : LocData) (lat lon : Int)
    (hmiss : lookupStr st.code_cache (pyUpper name) = none)
    (hresp : svc k = SvcResult.ok (rec :: rest))
    (hcode : rec.iataCode = some code)
    (hgeo : rec.geoCode = some ⟨some lat, some lon⟩)
    (hlat : lat ≠ 0) (hlon : lon ≠ 0) :
    (get_city_code svc st k name).ret = code
      ∧ lookupStr (get_city_code svc st k name).st.coordinate_cache code
          = some (lat, lon)
      ∧ get_city_coordinates svc' (get_city_code svc st k name).st k' code
          = ⟨some (lat, lon), (get_city_code svc st k name).st, k', []⟩ := by
  have h := city_success_geo svc st k name rec rest code lat lon hmiss hresp
    hcode hgeo hlat hlon
  rw [h]
  exact ⟨rfl, lookupStr_insert_self _ _ _,
    coords_hit svc' _ k' code (lat, lon) (lookupStr_insert_self _ _ _)⟩

theorem C3_witness :
    (get_city_code svcParis emptySt 0 "Paris").ret = "PAR"
      ∧ lookupStr (get_city_code svcParis emptySt 0 "Paris").st.coordinate_cache
          "PAR" = some (48, 2)
      ∧ get_city_coordinates svcEmpty (get_city_code svcParis emptySt 0 "Paris").st
          7 "PAR"
        = ⟨some (48, 2), (get_city_code svcParis emptySt 0 "Paris").st, 7, []⟩ :=
  C3_thm svcParis svcEmpty emptySt 0 7 "Paris" "PAR" parisRec [] 48 2
    (by decide) rfl rfl rfl (by decide) (by decide)

/-- Claim C4, counterexample: for the empty input name with an
always-empty service, `get_airport_code` returns the empty string — the
truncation fallback of the empty name — so the claimed "always non-empty
code" fails. -/
theorem C4_counterexample :
    (get_airport_code svcEmpty emptySt 0 "").ret = "" := by decide

/-- Claim C4 (amended): whenever the airport lookup is a cache miss and the
airport-subtype query yields an empty result or errors, the result of
`get_airport_code` equals `get_city_code` on the same cache state (with the
next oracle response); and the result is non-empty provided the input name
is non-empty and every cached or service-returned code is non-empty. -/
theorem C4_thm (svc : LocSvc) (st : ResolverSt) (k : Nat) (name : String)
    (hname : name ≠ "")
    (hcache : cacheCodesNonempty st)
    (hsvc : svcHeadCodesNonempty svc) :
    (get_airport_code svc st k name).ret ≠ ""
      ∧ (lookupStr st.code_cache (pyUpper name) = none →
          locRespFails (svc k) = true →
          (get_airport_code svc st k name).ret
            = (get_city_code svc st (k + 1) name).ret) := by
  constructor
  · cases hl : lookupStr st.code_cache (pyUpper name) with
    | some c =>
      rw [airport_hit svc st k name c hl]
      exact hcache _ _ hl
    | none =>
      cases hs : svc k with
      | respError =>
        rw [airport_fallback svc st k name hl (by rw [hs]; rfl)]
        exact city_ret_ne_empty svc st (k + 1) name hname hcache hsvc
      | genError =>
        rw [airport_fallback svc st k name hl (by rw [hs]; rfl)]
        exact city_ret_ne_empty svc st (k + 1) name hname hcache hsvc
      | ok data =>
        cases data with
        | nil =>
          rw [airport_fallback svc st k name hl (by rw [hs]; rfl)]
          exact city_ret_ne_empty svc st (k + 1) name hname hcache hsvc
        | cons rec rest =>
          cases hc : rec.iataCode with
          | some c =>
            rw [airport_success svc st k name rec rest c hl hs hc]
            exact hsvc k rec rest c hs hc
          | none =>
            rw [airport_fallback svc st k name hl
              (by rw [hs]; simp [locRespFails, hc])]
            exact city_ret_ne_empty svc st (k + 1) name hname hcache hsvc
  · intro hmiss hfail
    rw [airport_fallback svc st k name hmiss hfail]

theorem C4_witness :
    ((get_airport_code svcEmpty emptySt 0 "Zzqx").ret ≠ ""
      ∧ (lookupStr emptySt.code_cache (pyUpper "Zzqx") = none →
          locRespFails (svcEmpty 0) = true →
          (get_airport_code svcEmpty emptySt 0 "Zzqx").ret
            = (get_city_code svcEmpty emptySt 1 "Zzqx").ret)) :=
  C4_thm svcEmpty emptySt 0 "Zzqx" (by decide)
    (by intro key c h; simp [emptySt, lookupStr] at h)
    (by intro k rec rest c h hc; simp [svcEmpty] at h)

/-- Claim C5 (confirmed): on a cache miss, whenever the external lookup
returns an empty result or raises (or the first record lacks an `iataCode`,
whose `KeyError` the handler also absorbs), `get_city_code` returns the
first three characters of the input name upper-cased — it never fails
outward. -/
theorem C5_thm (svc : LocSvc) (st : ResolverSt) (k : Nat) (name : String)
    (hmiss : lookupStr st.code_cache (pyUpper name) = none)
    (hfail : locRespFails (svc k) = true) :
    (get_city_code svc st k name).ret = pyUpper (pyTake name 3) := by
  rw [city_fallback svc st k name hmiss hfail]

theorem C5_witness :
    ((get_city_code svcEmpty emptySt 0 "Zzqx").ret = pyUpper (pyTake "Zzqx" 3)
      ∧ pyUpper (pyTake "Zzqx" 3) = "ZZQ") :=
  ⟨C5_thm svcEmpty emptySt 0 "Zzqx" (by decide) (by decide), by decide⟩

/-- Claim C6, counterexample: `get_airport_code` takes its error branch (the
AIRPORT query raises on a cache miss), yet the caches are not left as they
were — the delegated city lookup succeeds and populates the name → code
cache. -/
theorem C6_counterexample :
    lookupStr emptySt.code_cache (pyUpper "Paris") = none
      ∧ svcAirportErrCityOk 0 = SvcResult.respError
      ∧ (get_airport_code svcAirportErrCityOk emptySt 0 "Paris").st ≠ emptySt := by
  decide

/-- Claim C6 (amended): the resolution caches are populated only by
successful lookups.  When `get_city_code` takes its empty-result or error
branch, both caches are left exactly as they were; when `get_airport_code`
takes its empty-result or error branch **and** the delegated city lookup
also fails or returns empty, both caches are left exactly as they were (if
the delegated city lookup succeeds, it — a successful lookup — populates the
name → code cache). -/
theorem C6_thm (svc : LocSvc) (st : ResolverSt) (k : Nat) (name : String)
    (hmiss : lookupStr st.code_cache (pyUpper name) = none) :
    (locRespFails (svc k) = true → (get_city_code svc st k name).st = st)
      ∧ (locRespFails (svc k) = true → locRespFails (svc (k + 1)) = true →
          (get_airport_code svc st k name).st = st) := by
  constructor
  · intro hfail
    rw [city_fallback svc st k name hmiss hfail]
  · intro hfail hfail2
    rw [airport_fallback svc st k name hmiss hfail,
      city_fallback svc st (k + 1) name hmiss hfail2]

theorem C6_witness :
    (get_city_code svcEmpty emptySt 0 "Zzqx").st = emptySt
      ∧ (get_airport_code svcEmpty emptySt 0 "Zzqx").st = emptySt :=
  ⟨(C6_thm svcEmpty emptySt 0 "Zzqx" (by decide)).1 (by decide),
   (C6_thm svcEmpty emptySt 0 "Zzqx" (by decide)).2 (by decide) (by decide)⟩

/-- Claim C7 (confirmed): for a non-empty offers list whose first offer
carries the accessed fields, `find_best_flight` selects the first offer
without re-sorting and returns the carrier code of the first segment of the
first itinerary, that segment's departure time, the last segment's arrival
time, and the offer's total price with " USD" appended. -/
theorem C7_thm (origin destination dep ret : String)
    (best : FlightOffer) (rest : List FlightOffer)
    (p d r a : String) (it : FlightItinerary) (its : List FlightItinerary)
    (s0 : FlightSegment) (stail : List FlightSegment) (sl : FlightSegment)
    (hp : best.price = some ⟨some p⟩)
    (hits : best.itineraries = some (it :: its))
    (hsegs : it.segments = some (s0 :: stail))
    (hlast : (s0 :: stail).getLast? = some sl)
    (hcar : s0.carrierCode = some a)
    (hdep : s0.departure = some ⟨some d⟩)
    (harr : sl.arrival = some ⟨some r⟩) :
    find_best_flight origin destination dep ret (SvcResult.ok (best :: rest))
      = Except.ok ⟨a, p ++ " USD", d, r⟩ := by
  simp [find_best_flight, parseFirstOffer, pyKey, pyHead, pyLast, Bind.bind,
    Except.bind, hp, hits, hsegs, hlast, hcar, hdep, harr]

theorem C7_witness :
    find_best_flight "JFK" "PAR" "2025-06-01" "2025-06-10"
        (SvcResult.ok [offer450])
      = Except.ok ⟨"AF", "450 USD", "2025-06-01T08:00", "2025-06-01T10:00"⟩ :=
  C7_thm "JFK" "PAR" "2025-06-01" "2025-06-10" offer450 [] "450"
    "2025-06-01T08:00" "2025-06-01T10:00" "AF" itin450 [] seg450 [] seg450
    rfl rfl rfl rfl rfl rfl rfl

/-- Claim C8 (confirmed): whenever the destination's coordinates resolve
successfully and the activities query succeeds with zero results,
`get_activities` returns exactly the two-entry static fallback — "Local
Exploration" then "Dining Experience" — and never an empty sequence. -/
theorem C8_thm (locSvc : LocSvc) (st : ResolverSt) (k : Nat)
    (destination : String) (c : Int × Int)
    (hcoord : (get_city_coordinates locSvc st k destination).ret = some c) :
    (get_activities locSvc (SvcResult.ok []) st k destination).ret
      = [⟨"Local Exploration", "Explore nearby attractions and sights."⟩,
         ⟨"Dining Experience", "Try a highly-rated local restaurant."⟩] := by
  simp [get_activities, hcoord]

theorem C8_witness :
    (get_activities svcEmpty (SvcResult.ok []) stParisCoord 0 "PAR").ret
      = [⟨"Local Exploration", "Explore nearby attractions and sights."⟩,
         ⟨"Dining Experience", "Try a highly-rated local restaurant."⟩] :=
  C8_thm svcEmpty stParisCoord 0 "PAR" (48, 2) (by decide)

/-- Claim C9 (confirmed): the two resolvers share the single name → code
cache keyed by the upper-cased name.  After either `get_city_code` or
`get_airport_code` succeeds and caches a code for a name, a call to the
other resolver with the same name in any letter case returns that cached
code with no external query and no state change. -/
theorem C9_thm (svc svc' svc'' : LocSvc) (st : ResolverSt) (k k' k'' : Nat)
    (name name' : String) (rec : LocationRec) (rest : LocData) (code : String)
    (hcase : pyUpper name' = pyUpper name)
    (hmiss : lookupStr st.code_cache (pyUpper name) = none)
    (hresp : svc k = SvcResult.ok (rec :: rest))
    (hcode : rec.iataCode = some code) :
    get_airport_code svc' (get_city_code svc st k name).st k' name'
        = ⟨code, (get_city_code svc st k name).st, k', []⟩
      ∧ get_city_code svc'' (get_airport_code svc st k name).st k'' name'
          = ⟨code, (get_airport_code svc st k name).st, k'', []⟩ := by
  constructor
  · refine airport_hit svc' _ k' name' code ?_
    rw [hcase, (city_success_parts svc st k name rec rest code hmiss hresp hcode).2.1]
    exact lookupStr_insert_self _ _ _
  · refine city_hit svc'' _ k'' name' code ?_
    rw [hcase, airport_success svc st k name rec rest code hmiss hresp hcode]
    exact lookupStr_insert_self _ _ _

theorem C9_witness :
    (get_airport_code svcEmpty (get_city_code svcParis emptySt 0 "Paris").st
        5 "paris"
      = ⟨"PAR", (get_city_code svcParis emptySt 0 "Paris").st, 5, []⟩
      ∧ get_city_code svcEmpty (get_airport_code svcParis emptySt 0 "Paris").st
          6 "paris"
        = ⟨"PAR", (get_airport_code svcParis emptySt 0 "Paris").st, 6, []⟩) :=
  C9_thm svcParis svcEmpty svcEmpty emptySt 0 5 6 "Paris" "paris" parisRec []
    "PAR" (by decide) (by decide) rfl rfl

/-- Claim C10 (confirmed): for every destination, cache state and behaviour
of the location and activities services, `get_activities` returns between 1
and 3 entries inclusive — the success branch truncates to at most 3 and
every empty-result or error branch returns a non-empty fallback, so an
empty sequence is never returned. -/
theorem C10_thm (locSvc : LocSvc) (actResp : SvcResult (List ActivityItem))
    (st : ResolverSt) (k : Nat) (destination : String) :
    1 ≤ (get_activities locSvc actResp st k destination).ret.length
      ∧ (get_activities locSvc actResp st k destination).ret.length ≤ 3 := by
  cases hr : (get_city_coordinates locSvc st k destination).ret with
  | none => simp [get_activities, hr]
  | some c =>
    cases actResp with
    | respError => simp [get_activities, hr]
    | genError => simp [get_activities, hr]
    | ok data =>
      cases hm : (data.take 3).map buildActivity with
      | nil => simp [get_activities, hr, hm]
      | cons a tail =>
        have hlen : (a :: tail).length ≤ 3 := by
          rw [← hm]
          simp only [List.length_map, List.length_take]
          exact min_le_left 3 data.length
        constructor
        · simp [get_activities, hr, hm]
        · simpa [get_activities, hr, hm] using hlen

end TravelPlanner
